import Mathlib

/-
  Verification of the form-builder field-specification compiler.

  Shallow embedding of:
  - renderFormField (src/screens/render-form-field/index.tsx, the variant
    dispatcher), modelled as a function from a field and the shared state
    bag to an optional control description that records what the control
    renders and which writes its event handlers perform;
  - convertJsonFieldToFormField and FormRenderer (same file, second part);
  - renderFormFields and FormPreview (src/app/layout.tsx, second part);
  - handleJsonChange / handleRefresh (src/screens/form-json-builder).
-/

namespace FormBuilder

/-- One selectable option with a label and a value, as in the option
objects of the source (the languages catalog, SelectItem entries). -/
structure ChoiceOption where
  label : String
  value : String
  deriving DecidableEq

/-- Names of the transient preview-state slots of the shared state bag
threaded through renderFormField. -/
inductive Slot
  | checked
  | smartDatetime
  | tagsValue
  | value
  | date
  | selectedValues
  | countryName
  | stateName
  | files
  | datetime
  deriving DecidableEq

/-- Values that flow through state-bag setters, form.setValue and
field.onChange. Dates are abstracted to natural-number timestamps and
File objects to their names. -/
inductive DynValue
  | str (s : String)
  | boolV (b : Bool)
  | strList (l : List String)
  | dateVal (d : Option Nat)
  | filesVal (v : Option (List String))
  deriving DecidableEq

/-- A user-interaction event on a mounted preview control, one
constructor per kind of change callback appearing in the source. -/
inductive Event
  | toggle
  | selectLanguage (i : Nat)
  | pickDate (d : Option Nat)
  | pickDatetime (d : Option Nat)
  | changeFiles (fs : Option (List String))
  | setValuesEv (vs : List String)
  | selectOption (v : String)
  | slide (vs : List Int)
  | sign (s : Option String)
  | smartPick (d : Nat)
  | countryChange (c : Option String)
  | stateChange (s : Option String)
  deriving DecidableEq

/-- One write performed by an event handler: a state-bag setter call, a
form.setValue call under a field name, or a field.onChange call. -/
inductive Effect
  | setBag (slot : Slot) (v : DynValue)
  | setForm (name : String) (v : DynValue)
  | fieldOnChange (v : DynValue)
  deriving DecidableEq

/-- The shared bag of transient preview state passed to renderFormField
(the value side of each setter and value pair; the canvas ref carries no
data relevant to the claims and is omitted). -/
structure StateBag where
  checked : Bool
  smartDatetime : Option Nat
  tagsValue : List String
  value : String
  date : Option Nat
  selectedValues : List String
  countryName : String
  stateName : String
  files : Option (List String)
  datetime : Option Nat
  deriving DecidableEq

/-- The FormFieldType record from the source types, restricted to the
fields the dispatcher and its callers consult. -/
structure FormFieldType where
  variant : String
  type : String := ""
  name : String := ""
  label : String := ""
  placeholder : String := ""
  required : Bool := false
  disabled : Bool := false
  description : String := ""
  options : Option (List ChoiceOption) := none
  min : Option Int := none
  max : Option Int := none
  step : Option Int := none
  defaultValue : Option Int := none
  length : Option Nat := none
  checked : Bool := false
  value : String := ""
  rowIndex : Nat := 0
  deriving DecidableEq

/-- JavaScript or-with-fallback on an optional number: an absent value
and the number 0 are falsy, so both yield the fallback. -/
def jsOrInt (x : Option Int) (d : Int) : Int :=
  match x with
  | none => d
  | some v => if v = 0 then d else v

/-- JavaScript or-with-fallback on a string: the empty string is falsy. -/
def jsOrStr (s : String) (d : String) : String :=
  if s = "" then d else s

/-- The module-level languages catalog rendered by the Combobox case. -/
def languages : List ChoiceOption :=
  [⟨"English", "en"⟩, ⟨"French", "fr"⟩, ⟨"German", "de"⟩,
   ⟨"Spanish", "es"⟩, ⟨"Portuguese", "pt"⟩, ⟨"Russian", "ru"⟩,
   ⟨"Japanese", "ja"⟩, ⟨"Korean", "ko"⟩, ⟨"Chinese", "zh"⟩]

/-- The hard-coded SelectItem entries of the Select case. -/
def selectItems : List ChoiceOption :=
  [⟨"m@example.com", "m@example.com"⟩, ⟨"m@google.com", "m@google.com"⟩,
   ⟨"m@support.com", "m@support.com"⟩]

/-- The hard-coded MultiSelectorItem entries of the Multi Select case. -/
def multiSelectItems : List ChoiceOption :=
  [⟨"React", "React"⟩, ⟨"Vue", "Vue"⟩, ⟨"Svelte", "Svelte"⟩]

/-- Description of the control a dispatcher case mounts: which slots of
the shared bag it displays, which selectable choices it renders, its
render-time numeric parameters, and the writes each interaction event
triggers (the handler closes over the state bag the control was
rendered with, as the source closures do). -/
structure ControlDesc where
  caseName : String
  readsSlots : List Slot := []
  choices : List ChoiceOption := []
  selectDefault : Option String := none
  sliderMin : Option Int := none
  sliderMax : Option Int := none
  sliderStep : Option Int := none
  sliderDefault : Option Int := none
  otpMaxLength : Option Nat := none
  otpGroups : List (List Nat) := []
  handler : Event → List Effect := fun _ => []

/-- The variant dispatcher renderFormField: a switch on field.variant,
one branch per case of the source in source order, returning none (null)
in the default branch. Each branch records what the mounted control
displays and the exact writes its callbacks perform. -/
def renderFormField (field : FormFieldType) (state : StateBag) :
    Option ControlDesc :=
  if field.variant = "Checkbox" then
    some { caseName := "Checkbox", readsSlots := [.checked],
           handler := fun e =>
             match e with
             | .toggle => [.setBag .checked (.boolV (!state.checked))]
             | _ => [] }
  else if field.variant = "Combobox" then
    some { caseName := "Combobox", readsSlots := [.value],
           choices := languages,
           handler := fun e =>
             match e with
             | .selectLanguage i =>
               match languages[i]? with
               | some lang =>
                 [.setBag .value (.str lang.value),
                  .setForm field.name (.str lang.value)]
               | none => []
             | _ => [] }
  else if field.variant = "Date Picker" then
    some { caseName := "Date Picker", readsSlots := [.date],
           handler := fun e =>
             match e with
             | .pickDate d => [.setBag .date (.dateVal d)]
             | _ => [] }
  else if field.variant = "Datetime Picker" then
    some { caseName := "Datetime Picker", readsSlots := [.datetime],
           handler := fun e =>
             match e with
             | .pickDatetime d =>
               match d with
               | some dt => [.setBag .datetime (.dateVal (some dt))]
               | none => []
             | _ => [] }
  else if field.variant = "File Input" then
    some { caseName := "File Input", readsSlots := [.files],
           handler := fun e =>
             match e with
             | .changeFiles fs => [.setBag .files (.filesVal fs)]
             | _ => [] }
  else if field.variant = "Input" then
    some { caseName := "Input" }
  else if field.variant = "Input OTP" then
    some { caseName := "Input OTP", otpMaxLength := some 6,
           otpGroups := [[0, 1, 2], [3, 4, 5]] }
  else if field.variant = "Location Input" then
    some { caseName := "Location Input",
           readsSlots := [.countryName, .stateName],
           handler := fun e =>
             match e with
             | .countryChange c =>
               [.setBag .countryName (.str (c.getD "")),
                .setForm field.name
                  (.strList [c.getD "", jsOrStr state.stateName ""])]
             | .stateChange s =>
               [.setBag .stateName (.str (s.getD "")),
                .setForm field.name
                  (.strList [jsOrStr state.countryName "", s.getD ""])]
             | _ => [] }
  else if field.variant = "Multi Select" then
    some { caseName := "Multi Select", readsSlots := [.selectedValues],
           choices := multiSelectItems,
           handler := fun e =>
             match e with
             | .setValuesEv vs =>
               [.setBag .selectedValues (.strList vs),
                .setForm field.name (.strList vs)]
             | _ => [] }
  else if field.variant = "Select" then
    some { caseName := "Select", choices := selectItems,
           selectDefault := some "m@example.com",
           handler := fun e =>
             match e with
             | .selectOption v => [.fieldOnChange (.str v)]
             | _ => [] }
  else if field.variant = "Slider" then
    some { caseName := "Slider", readsSlots := [.value],
           sliderMin := some (jsOrInt field.min 0),
           sliderMax := some (jsOrInt field.max 100),
           sliderStep := some (jsOrInt field.step 1),
           sliderDefault := some 5,
           handler := fun e =>
             match e with
             | .slide vs =>
               match vs with
               | v :: _ => [.setBag .value (.str (toString v))]
               | [] => []
             | _ => [] }
  else if field.variant = "Signature Input" then
    some { caseName := "Signature Input",
           handler := fun e =>
             match e with
             | .sign s =>
               match s with
               | some sig =>
                 if sig = "" then [] else [.fieldOnChange (.str sig)]
               | none => []
             | _ => [] }
  else if field.variant = "Smart Datetime Input" then
    some { caseName := "Smart Datetime Input",
           readsSlots := [.smartDatetime],
           handler := fun e =>
             match e with
             | .smartPick d => [.setBag .smartDatetime (.dateVal (some d))]
             | _ => [] }
  else if field.variant = "Switch" then
    some { caseName := "Switch", readsSlots := [.checked],
           handler := fun e =>
             match e with
             | .toggle => [.setBag .checked (.boolV (!state.checked))]
             | _ => [] }
  else if field.variant = "Tags Input" then
    some { caseName := "Tags Input", readsSlots := [.tagsValue],
           handler := fun e =>
             match e with
             | .setValuesEv vs =>
               [.setBag .tagsValue (.strList vs),
                .setForm field.name (.strList vs)]
             | _ => [] }
  else if field.variant = "Textarea" then
    some { caseName := "Textarea" }
  else if field.variant = "Password" then
    some { caseName := "Password" }
  else if field.variant = "Phone" then
    some { caseName := "Phone" }
  else
    none

/-- The variant strings that match a case of the dispatcher switch. -/
def recognizedVariants : List String :=
  ["Checkbox", "Combobox", "Date Picker", "Datetime Picker", "File Input",
   "Input", "Input OTP", "Location Input", "Multi Select", "Select",
   "Slider", "Signature Input", "Smart Datetime Input", "Switch",
   "Tags Input", "Textarea", "Password", "Phone"]

/-- A raw JSON field object as supplied to the JSON-builder preview,
restricted to the properties convertJsonFieldToFormField reads. -/
structure JsonField where
  type : String
  label : String := ""
  name : String := ""
  placeholder : String := ""
  required : Bool := false
  description : String := ""
  options : Option (List ChoiceOption) := none
  disabled : Bool := false
  value : String := ""
  checked : Bool := false
  deriving DecidableEq

/-- The fixed type-to-variant table of convertJsonFieldToFormField, in
source order. -/
def typeToVariant : List (String × String) :=
  [("text", "Input"), ("email", "Input"), ("textarea", "Textarea"),
   ("password", "Password"), ("checkbox", "Checkbox"),
   ("select", "Select"), ("file", "File Input"), ("date", "Date Picker"),
   ("datetime", "Datetime Picker"), ("phone", "Phone")]

/-- First-match lookup in an association list of strings, as a JS object
property access on the table. -/
def lookupTable (tbl : List (String × String)) (k : String) :
    Option String :=
  (tbl.find? (fun p => p.1 == k)).map (fun p => p.2)

/-- JavaScript charAt(0).toUpperCase() + slice(1): capitalize the first
character; the empty string stays empty. -/
def capitalizeFirst (s : String) : String :=
  match s.data with
  | [] => ""
  | c :: cs => String.mk (c.toUpper :: cs)

/-- Conversion of a raw JSON field to a FormFieldType: table lookup on
the type, falling back to the type string with its first letter
capitalized. -/
def convertJsonFieldToFormField (j : JsonField) : FormFieldType :=
  { variant := (lookupTable typeToVariant j.type).getD (capitalizeFirst j.type),
    type := j.type,
    label := j.label,
    name := j.name,
    placeholder := j.placeholder,
    required := j.required,
    description := j.description,
    options := j.options,
    disabled := j.disabled,
    value := j.value,
    checked := j.checked,
    rowIndex := 0 }

/-- The per-field state object literal FormRenderer builds inside its
map callback: a fresh record per field, but populated from the same
hook values and setters for every field, independent of the field. -/
def bagForField (bag : StateBag) (_field : FormFieldType) : StateBag :=
  { checked := bag.checked, smartDatetime := bag.smartDatetime,
    tagsValue := bag.tagsValue, value := bag.value, date := bag.date,
    selectedValues := bag.selectedValues, countryName := bag.countryName,
    stateName := bag.stateName, files := bag.files,
    datetime := bag.datetime }

/-- The fields FormRenderer actually renders: each JSON field is
converted, dispatched with the shared bag, wrapped in a FormField keyed
by its name when a control came back, and dropped (the null branch,
which React omits from the output) otherwise. -/
def formRendererRendered (bag : StateBag) (jsonFields : List JsonField) :
    List (String × ControlDesc) :=
  (jsonFields.map convertJsonFieldToFormField).filterMap
    (fun f => (renderFormField f (bagForField bag f)).map
       (fun c => (f.name, c)))

/-- An entry of the FormPreview field list: a single field or a grouped
row of fields. -/
inductive FormFieldOrGroup
  | single (f : FormFieldType)
  | group (fs : List FormFieldType)

/-- The all-empty inline state object renderFormFields in layout
passes to every renderFormField call. -/
def layoutStateBag : StateBag :=
  { checked := false, smartDatetime := none, tagsValue := [], value := "",
    date := none, selectedValues := [], countryName := "", stateName := "",
    files := none, datetime := none }

/-- React.cloneElement: succeeds on a real element and throws when the
argument is null, which is what the dispatcher returns for an
unrecognized variant. -/
def cloneElement (el : Option ControlDesc) : Except String ControlDesc :=
  match el with
  | some c => .ok c
  | none => .error "React.cloneElement: the argument must be a React element"

/-- A node of the rendered output of renderFormFields: a 12-column grid
row whose members each span colSpan columns, or a lone field. -/
inductive RenderedNode
  | gridRow (colSpan : Nat) (controls : List ControlDesc)
  | singleField (control : ControlDesc)

/-- Rendering of one group row member by member: each member is
dispatched and cloned, and the first cloneElement throw aborts the
render. -/
def renderGroupMembers (fs : List FormFieldType) :
    Except String (List ControlDesc) :=
  match fs with
  | [] => .ok []
  | f :: rest =>
    match cloneElement (renderFormField f layoutStateBag) with
    | .error e => .error e
    | .ok c =>
      match renderGroupMembers rest with
      | .error e => .error e
      | .ok cs => .ok (c :: cs)

/-- The renderFormFields walk of layout: an array entry renders as a
grid row whose members span 6 columns when the group has exactly 2
members and 4 columns otherwise; a lone entry renders as a single
field. Both branches clone the dispatched element with no null check. -/
def renderFormFields (fields : List FormFieldOrGroup) :
    Except String (List RenderedNode) :=
  match fields with
  | [] => .ok []
  | .group fs :: rest =>
    let colSpan := if fs.length = 2 then 6 else 4
    match renderGroupMembers fs with
    | .error e => .error e
    | .ok cs =>
      match renderFormFields rest with
      | .error e => .error e
      | .ok rs => .ok (.gridRow colSpan cs :: rs)
  | .single f :: rest =>
    match cloneElement (renderFormField f layoutStateBag) with
    | .error e => .error e
    | .ok c =>
      match renderFormFields rest with
      | .error e => .error e
      | .ok rs => .ok (.singleField c :: rs)

/-- The component state of FormJsonBuilder, polymorphic in the parsed
form-data representation. -/
structure BuilderState (α : Type) where
  jsonValue : String
  formData : α
  error : String
  key : Nat
  deriving DecidableEq

/-- The handleJsonChange keystroke handler: always records the new
editor text; on a successful parse it installs the parsed form data and
clears the error, and on a parse failure it only surfaces the error
message, leaving formData untouched. -/
def handleJsonChange {α : Type} (parse : String → Option α)
    (value : String) (s : BuilderState α) : BuilderState α :=
  let s1 := { s with jsonValue := value }
  match parse value with
  | some parsed => { s1 with formData := parsed, error := "" }
  | none => { s1 with error := "Invalid JSON format" }

/-- The handleRefresh button handler: reparses the current editor text;
on success it installs the parsed data, clears the error and bumps the
remount key, and on failure it only surfaces the error message. -/
def handleRefresh {α : Type} (parse : String → Option α)
    (s : BuilderState α) : BuilderState α :=
  match parse s.jsonValue with
  | some parsed =>
    { s with formData := parsed, error := "", key := s.key + 1 }
  | none => { s with error := "Invalid JSON format" }

/-- Flattening of a field list for emission, groups spliced in order. -/
def flattenFields : List FormFieldOrGroup → List FormFieldType
  | [] => []
  | .single f :: rest => f :: flattenFields rest
  | .group fs :: rest => fs ++ flattenFields rest

/-- Emission of one field control block as source text. -/
def emitFieldBlock (f : FormFieldType) : String :=
  "<FormField name=" ++ f.name ++ " variant=" ++ f.variant ++ " />\n"

/-- Emission of one render block: a lone block for a single entry, a
grid-row wrapper with the 2-member half split and otherwise the span-4
split for a grouped entry. -/
def emitRenderBlock : FormFieldOrGroup → String
  | .single f => emitFieldBlock f
  | .group fs =>
    let colSpan := if fs.length = 2 then 6 else 4
    "<div className=grid-cols-12 span=" ++ toString colSpan ++ ">\n"
      ++ String.join (fs.map emitFieldBlock) ++ "</div>\n"

/-- Modelled from the spec: generateFormCode lives in
screens/generate-code-parts, which is not under src; per spec section
4.5 it deterministically emits a schema literal, a defaults literal and
one render block per FieldGroup, concatenated as source text. -/
def generateFormCode (fields : List FormFieldOrGroup) : String :=
  "const formSchema = z.object(...)\n"
    ++ "const defaultValues = (...)\n"
    ++ String.join ((flattenFields fields).map
         (fun f => "// schema entry " ++ f.name ++ "\n"))
    ++ String.join (fields.map emitRenderBlock)

/-- Modelled from the spec: formatJSXCode lives in lib/utils, which is
not under src; per spec section 4.5 step 5 it is a deterministic
formatting pass, modelled as stripping trailing spaces from each line. -/
def formatJSXCode (code : String) : String :=
  String.intercalate "\n"
    ((code.splitOn "\n").map
      (fun line => String.mk ((line.data.reverse.dropWhile
         (fun c => c = ' ')).reverse)))

/-- The code tab pipeline of FormPreview: generateFormCode followed by
formatJSXCode. -/
def formPreviewFormattedCode (fields : List FormFieldOrGroup) : String :=
  formatJSXCode (generateFormCode fields)

/-! Helper lemmas and sample inputs shared by several developments. -/

/-- A field whose variant string matches none of the dispatcher cases
falls through every branch to the default null result. -/
theorem renderFormField_eq_none_of_unrecognized (f : FormFieldType)
    (bag : StateBag) (h : f.variant ∉ recognizedVariants) :
    renderFormField f bag = none := by
  simp only [recognizedVariants, List.mem_cons, List.not_mem_nil, or_false,
    not_or] at h
  obtain ⟨h1, h2, h3, h4, h5, h6, h7, h8, h9, h10, h11, h12, h13, h14, h15,
    h16, h17, h18⟩ := h
  simp [renderFormField, h1, h2, h3, h4, h5, h6, h7, h8, h9, h10, h11, h12,
    h13, h14, h15, h16, h17, h18]

/-- Dropping a JSON field whose converted variant the dispatcher maps to
null leaves the rendered field list of FormRenderer unchanged. -/
theorem formRendererRendered_drop (bag : StateBag) (pre : List JsonField)
    (j : JsonField) (post : List JsonField)
    (h : renderFormField (convertJsonFieldToFormField j)
           (bagForField bag (convertJsonFieldToFormField j)) = none) :
    formRendererRendered bag (pre ++ j :: post)
      = formRendererRendered bag (pre ++ post) := by
  unfold formRendererRendered
  rw [List.map_append, List.map_cons, List.filterMap_append,
    List.map_append, List.filterMap_append]
  congr 1
  rw [List.filterMap_cons]
  simp [h]

/-- Sample field of the documented hyphenated type multi-select, whose
converted variant Multi-select matches no dispatcher case. -/
def sampleUnrecognizedField : FormFieldType :=
  { variant := "Multi-select", type := "multi-select", name := "skills" }

/-- Sample recognized Input field. -/
def sampleInputField (n : String) : FormFieldType :=
  { variant := "Input", type := "text", name := n }

/-- Sample JSON field of type text. -/
def sampleTextJson : JsonField :=
  { type := "text", name := "fullName", required := true }

/-- Sample JSON field of the hyphenated documented type multi-select. -/
def sampleMultiSelectJson : JsonField :=
  { type := "multi-select", name := "skills" }

/-- Sample JSON field of the hyphenated documented type date-picker. -/
def sampleDatePickerJson : JsonField :=
  { type := "date-picker", name := "appointmentDate" }

/-- Sample Checkbox field. -/
def sampleCheckboxField : FormFieldType :=
  { variant := "Checkbox", type := "checkbox", name := "subscribe" }

/-- Sample Switch field. -/
def sampleSwitchField : FormFieldType :=
  { variant := "Switch", type := "switch", name := "darkMode" }

/-- Sample Multi Select field. -/
def sampleMultiSelectField : FormFieldType :=
  { variant := "Multi Select", type := "multi-select", name := "skills" }

/-- Sample Combobox field with an explicitly empty options list. -/
def sampleComboboxField : FormFieldType :=
  { variant := "Combobox", type := "combobox", name := "language",
    options := some [] }

/-- Sample Slider field with a declared default and no declared
min, max or step. -/
def sampleSliderField : FormFieldType :=
  { variant := "Slider", type := "slider", name := "price",
    defaultValue := some 500 }

/-- Sample Input OTP field declaring a length of 4. -/
def sampleOtpField : FormFieldType :=
  { variant := "Input OTP", type := "input-otp", name := "code",
    length := some 4 }

/-- A nontrivial shared state bag for witnesses. -/
def sampleBag : StateBag :=
  { checked := false, smartDatetime := none, tagsValue := ["x"],
    value := "hello", date := none, selectedValues := ["en"],
    countryName := "France", stateName := "", files := none,
    datetime := none }

/-! Claim C1. -/

/-- Claim C1 counterexample: the dispatcher does return null for the
unrecognized variant Multi-select, and the FormRenderer path would omit
it, but the renderFormFields path of the layout file feeds that null
straight into React.cloneElement, which throws; so rendering a
field-list containing one unrecognized-variant field does not succeed
there, unlike the same list with the field removed, on both its single
and its grouped branch. -/
theorem C1_counterexample :
    renderFormField sampleUnrecognizedField layoutStateBag = none ∧
    renderFormFields [.single sampleUnrecognizedField]
      = .error "React.cloneElement: the argument must be a React element" ∧
    renderFormFields
        [.group [sampleInputField "a", sampleUnrecognizedField]]
      = .error "React.cloneElement: the argument must be a React element" ∧
    renderFormFields ([] : List FormFieldOrGroup) = .ok [] :=
  ⟨rfl, rfl, rfl, rfl⟩

/-- Claim C1 (amended): renderFormField returns null for every variant
matching no dispatcher case, and the FormRenderer path (which checks for
null) omits such a field from the rendered form, producing the same
rendered fields as the list with that field removed; the grouped
renderFormFields path of the layout file, however, passes the null
result to React.cloneElement without a check and throws. -/
theorem C1_amended :
    (∀ (f : FormFieldType) (bag : StateBag),
       f.variant ∉ recognizedVariants → renderFormField f bag = none) ∧
    (∀ (bag : StateBag) (pre : List JsonField) (j : JsonField)
       (post : List JsonField),
       renderFormField (convertJsonFieldToFormField j)
           (bagForField bag (convertJsonFieldToFormField j)) = none →
       formRendererRendered bag (pre ++ j :: post)
         = formRendererRendered bag (pre ++ post)) :=
  ⟨renderFormField_eq_none_of_unrecognized, formRendererRendered_drop⟩

/-- Claim C1 witness: the amended statement at the concrete
Multi-select field and a concrete two-field JSON form. -/
theorem C1_amended_witness :
    renderFormField sampleUnrecognizedField sampleBag = none ∧
    formRendererRendered sampleBag [sampleTextJson, sampleMultiSelectJson]
      = formRendererRendered sampleBag [sampleTextJson] :=
  ⟨C1_amended.1 sampleUnrecognizedField sampleBag (by decide),
   C1_amended.2 sampleBag [sampleTextJson] sampleMultiSelectJson []
     rfl⟩

/-! Claim C2. -/

/-- Selector for form.setValue effects. -/
def isFormWrite : Effect → Bool
  | .setForm _ _ => true
  | _ => false

/-- Claim C2 counterexample: on toggle, the Checkbox control performs
only the state-bag write; its effect list carries no form.setValue
write at all, so the claimed both-writes contract fails on the very
Checkbox case the claim names. -/
theorem C2_counterexample :
    (renderFormField sampleCheckboxField layoutStateBag).map
        (fun c => ((c.handler .toggle).filter isFormWrite,
                   c.handler .toggle))
      = some ([], [.setBag .checked (.boolV true)]) := rfl

/-- Claim C2 (amended): only the Combobox, Location Input, Multi Select
and Tags Input cases perform both writes (own state-bag slot and
form.setValue under the field name); the Checkbox, Date Picker and
Slider cases update only their state-bag slot and never write the bound
form value. -/
theorem C2_amended (f : FormFieldType) (bag : StateBag) :
    (f.variant = "Multi Select" → ∀ vs : List String,
      (renderFormField f bag).map (fun c => c.handler (.setValuesEv vs))
        = some [.setBag .selectedValues (.strList vs),
                .setForm f.name (.strList vs)]) ∧
    (f.variant = "Tags Input" → ∀ vs : List String,
      (renderFormField f bag).map (fun c => c.handler (.setValuesEv vs))
        = some [.setBag .tagsValue (.strList vs),
                .setForm f.name (.strList vs)]) ∧
    (f.variant = "Combobox" → ∀ (i : Nat) (lang : ChoiceOption),
      languages[i]? = some lang →
      (renderFormField f bag).map (fun c => c.handler (.selectLanguage i))
        = some [.setBag .value (.str lang.value),
                .setForm f.name (.str lang.value)]) ∧
    (f.variant = "Location Input" → ∀ c : Option String,
      (renderFormField f bag).map (fun d => d.handler (.countryChange c))
        = some [.setBag .countryName (.str (c.getD "")),
                .setForm f.name
                  (.strList [c.getD "", jsOrStr bag.stateName ""])]) ∧
    (f.variant = "Checkbox" →
      (renderFormField f bag).map (fun c => c.handler .toggle)
        = some [.setBag .checked (.boolV (!bag.checked))]) ∧
    (f.variant = "Date Picker" → ∀ d : Option Nat,
      (renderFormField f bag).map (fun c => c.handler (.pickDate d))
        = some [.setBag .date (.dateVal d)]) ∧
    (f.variant = "Slider" → ∀ (v : Int) (vs : List Int),
      (renderFormField f bag).map (fun c => c.handler (.slide (v :: vs)))
        = some [.setBag .value (.str (toString v))]) := by
  refine ⟨?_, ?_, ?_, ?_, ?_, ?_, ?_⟩ <;> intro h <;> intros <;>
    simp_all [renderFormField]

/-- Claim C2 witness: the amended statement at a concrete Multi Select
field (both writes fire) and a concrete Checkbox field (only the bag
write fires). -/
theorem C2_amended_witness :
    (renderFormField sampleMultiSelectField sampleBag).map
        (fun c => c.handler (.setValuesEv ["React"]))
      = some [.setBag .selectedValues (.strList ["React"]),
              .setForm "skills" (.strList ["React"])] ∧
    (renderFormField sampleCheckboxField sampleBag).map
        (fun c => c.handler .toggle)
      = some [.setBag .checked (.boolV true)] :=
  ⟨(C2_amended sampleMultiSelectField sampleBag).1 rfl ["React"],
   (C2_amended sampleCheckboxField sampleBag).2.2.2.2.1 rfl⟩

/-! Claim C3. -/

/-- The control value the Checkbox branch produces over a given bag. -/
def checkboxControlAt (bag : StateBag) : ControlDesc :=
  { caseName := "Checkbox", readsSlots := [.checked],
    handler := fun e =>
      match e with
      | .toggle => [.setBag .checked (.boolV (!bag.checked))]
      | _ => [] }

/-- The control value the Switch branch produces over a given bag. -/
def switchControlAt (bag : StateBag) : ControlDesc :=
  { caseName := "Switch", readsSlots := [.checked],
    handler := fun e =>
      match e with
      | .toggle => [.setBag .checked (.boolV (!bag.checked))]
      | _ => [] }

/-- Claim C3: the per-field state object FormRenderer builds is the same
for every field of one form instance (one flat bag of hook slots,
independent of field identity), and consequently a Checkbox and a
Switch rendered in the same form both display the single shared checked
slot and both toggle that same slot. -/
theorem C3_shared_state_bag :
    (∀ (bag : StateBag) (f g : FormFieldType),
       bagForField bag f = bagForField bag g) ∧
    (∀ (bag : StateBag) (f₁ f₂ : FormFieldType) (c₁ c₂ : ControlDesc),
       f₁.variant = "Checkbox" → f₂.variant = "Switch" →
       renderFormField f₁ (bagForField bag f₁) = some c₁ →
       renderFormField f₂ (bagForField bag f₂) = some c₂ →
       c₁.readsSlots = [Slot.checked] ∧ c₂.readsSlots = [Slot.checked] ∧
       c₁.handler .toggle = [.setBag .checked (.boolV (!bag.checked))] ∧
       c₂.handler .toggle = [.setBag .checked (.boolV (!bag.checked))]) := by
  constructor
  · intro bag f g; rfl
  · intro bag f₁ f₂ c₁ c₂ h1 h2 hr1 hr2
    simp only [renderFormField, h1, h2, String.reduceEq, reduceIte,
      Option.some.injEq] at hr1 hr2
    subst hr1
    subst hr2
    exact ⟨rfl, rfl, rfl, rfl⟩

/-- Claim C3 witness: the shared-bag statement at the concrete sample
bag, a concrete Checkbox field and a concrete Switch field. -/
theorem C3_witness :
    bagForField sampleBag sampleCheckboxField
        = bagForField sampleBag sampleSwitchField ∧
    ((checkboxControlAt sampleBag).readsSlots = [Slot.checked] ∧
     (switchControlAt sampleBag).readsSlots = [Slot.checked] ∧
     (checkboxControlAt sampleBag).handler .toggle
       = [.setBag .checked (.boolV (!sampleBag.checked))] ∧
     (switchControlAt sampleBag).handler .toggle
       = [.setBag .checked (.boolV (!sampleBag.checked))]) :=
  ⟨C3_shared_state_bag.1 sampleBag sampleCheckboxField sampleSwitchField,
   C3_shared_state_bag.2 sampleBag sampleCheckboxField sampleSwitchField
     (checkboxControlAt sampleBag) (switchControlAt sampleBag)
     rfl rfl rfl rfl⟩

/-! Claim C4. -/

/-- Extractor for the member column span of the first rendered node
when it is a grid row. -/
def headColSpan (r : Except String (List RenderedNode)) : Option Nat :=
  match r with
  | .ok (.gridRow n _ :: _) => some n
  | _ => none

/-- The control value the Input branch produces. -/
def inputControl : ControlDesc := { caseName := "Input" }

/-- Claim C4 counterexample: a 3-member group renders each member with
col-span-4, and 4 columns of the 12-column grid is a third of the row,
not the quarter (3 columns) the claim states. -/
theorem C4_counterexample :
    headColSpan (renderFormFields
        [.group [sampleInputField "a", sampleInputField "b",
                 sampleInputField "c"]]) = some 4
      ∧ (4 : Nat) ≠ 12 / 4 :=
  ⟨rfl, by decide⟩

/-- Claim C4 (amended): a group of exactly 2 members splits into two
half-width col-span-6 slots of the 12-column grid; a group of any other
size gives every member col-span-4, one third of the row. -/
theorem C4_amended (fs : List FormFieldType) (rest : List FormFieldOrGroup)
    (cs : List ControlDesc) (rs : List RenderedNode)
    (h1 : renderGroupMembers fs = .ok cs)
    (h2 : renderFormFields rest = .ok rs) :
    renderFormFields (.group fs :: rest)
      = .ok (.gridRow (if fs.length = 2 then 6 else 4) cs :: rs) := by
  simp [renderFormFields, h1, h2]

/-- Claim C4 witness: a concrete 2-member group renders as a grid row
of col-span-6 members. -/
theorem C4_amended_witness :
    renderFormFields [.group [sampleInputField "a", sampleInputField "b"]]
      = .ok [.gridRow 6 [inputControl, inputControl]] :=
  C4_amended [sampleInputField "a", sampleInputField "b"] []
    [inputControl, inputControl] [] rfl rfl

/-! Claim C5. -/

/-- Claim C5 counterexample: a Combobox field with an empty options
sequence still renders, but its selectable choices are the module-level
languages catalog with 9 entries, not an empty option set drawn from
the field options. -/
theorem C5_counterexample :
    (renderFormField sampleComboboxField layoutStateBag).map
        (fun c => c.choices) = some languages
      ∧ sampleComboboxField.options = some []
      ∧ languages.length = 9 :=
  ⟨rfl, rfl, rfl⟩

/-- Claim C5 (amended): for Select, Multi Select and Combobox fields
the dispatcher renders a control whatever the options sequence says
(absent, empty or populated), but the rendered choices are hard-coded
catalogs — three fixed email entries for Select, React, Vue and Svelte
for Multi Select, and the module-level languages list for Combobox —
never the field-supplied options. -/
theorem C5_amended (f : FormFieldType) (bag : StateBag) :
    (f.variant = "Select" →
      (renderFormField f bag).map (fun c => c.choices) = some selectItems) ∧
    (f.variant = "Multi Select" →
      (renderFormField f bag).map (fun c => c.choices)
        = some multiSelectItems) ∧
    (f.variant = "Combobox" →
      (renderFormField f bag).map (fun c => c.choices) = some languages) := by
  refine ⟨?_, ?_, ?_⟩ <;> intro h <;> simp [renderFormField, h]

/-- Claim C5 witness: the amended statement at the concrete Combobox
field whose declared options list is empty. -/
theorem C5_amended_witness :
    (renderFormField sampleComboboxField sampleBag).map
        (fun c => c.choices) = some languages :=
  (C5_amended sampleComboboxField sampleBag).2.2 rfl

/-! Claim C6. -/

/-- Claim C6: whenever the editor text fails to parse — on a keystroke
through handleJsonChange or on Refresh through handleRefresh — the form
data handed to the renderer stays at the last successfully parsed
value, only the Invalid JSON format error is surfaced, and the remount
key does not move. -/
theorem C6_invalid_json_state_unchanged {α : Type}
    (parse : String → Option α) (value : String) (s : BuilderState α) :
    (parse value = none →
      (handleJsonChange parse value s).formData = s.formData ∧
      (handleJsonChange parse value s).error = "Invalid JSON format" ∧
      (handleJsonChange parse value s).key = s.key) ∧
    (parse s.jsonValue = none →
      (handleRefresh parse s).formData = s.formData ∧
      (handleRefresh parse s).error = "Invalid JSON format" ∧
      (handleRefresh parse s).key = s.key ∧
      (handleRefresh parse s).jsonValue = s.jsonValue) := by
  constructor <;> intro h <;> simp [handleJsonChange, handleRefresh, h]

/-- A concrete builder state whose editor text is not valid JSON. -/
def sampleBuilderState : BuilderState Nat :=
  { jsonValue := "not json", formData := 7, error := "", key := 2 }

/-- Claim C6 witness: the statement at a concrete always-failing parse,
a concrete new editor text and a concrete state, for both handlers. -/
theorem C6_witness :
    ((handleJsonChange (fun _ => (none : Option Nat)) "still bad"
        sampleBuilderState).formData = sampleBuilderState.formData ∧
     (handleJsonChange (fun _ => (none : Option Nat)) "still bad"
        sampleBuilderState).error = "Invalid JSON format" ∧
     (handleJsonChange (fun _ => (none : Option Nat)) "still bad"
        sampleBuilderState).key = sampleBuilderState.key) ∧
    ((handleRefresh (fun _ => (none : Option Nat))
        sampleBuilderState).formData = sampleBuilderState.formData ∧
     (handleRefresh (fun _ => (none : Option Nat))
        sampleBuilderState).error = "Invalid JSON format" ∧
     (handleRefresh (fun _ => (none : Option Nat))
        sampleBuilderState).key = sampleBuilderState.key ∧
     (handleRefresh (fun _ => (none : Option Nat))
        sampleBuilderState).jsonValue = sampleBuilderState.jsonValue) :=
  ⟨(C6_invalid_json_state_unchanged (fun _ => none) "still bad"
      sampleBuilderState).1 rfl,
   (C6_invalid_json_state_unchanged (fun _ => none) "still bad"
      sampleBuilderState).2 rfl⟩

/-! Claim C7. -/

/-- Claim C7: for one fixed Form Definition, running the code pipeline
(generateFormCode then formatJSXCode) twice yields byte-identical text:
the pipeline is a deterministic pure function of the definition. -/
theorem C7_code_pipeline_deterministic (fd fd2 : List FormFieldOrGroup)
    (h : fd = fd2) :
    formPreviewFormattedCode fd = formPreviewFormattedCode fd2 := by
  rw [h]

/-- Claim C7 witness: the two calls agree on a concrete one-field
definition. -/
theorem C7_witness :
    formPreviewFormattedCode [.single (sampleInputField "email")]
      = formPreviewFormattedCode [.single (sampleInputField "email")] :=
  C7_code_pipeline_deterministic [.single (sampleInputField "email")]
    [.single (sampleInputField "email")] rfl

/-! Claim C8. -/

/-- The hyphenated field types documented by the JSON builder. -/
def hyphenatedDocTypes : List String :=
  ["multi-select", "tags-input", "input-otp", "smart-datetime",
   "signature-input", "location-input", "date-picker", "datetime-picker"]

/-- A JSON field of any documented hyphenated type converts to a
capitalized hyphenated variant that matches no dispatcher case. -/
theorem renderFormField_none_of_hyphenated (j : JsonField)
    (bag : StateBag) (h : j.type ∈ hyphenatedDocTypes) :
    renderFormField (convertJsonFieldToFormField j) bag = none := by
  apply renderFormField_eq_none_of_unrecognized
  have hv : (convertJsonFieldToFormField j).variant
      = (lookupTable typeToVariant j.type).getD (capitalizeFirst j.type) :=
    rfl
  rw [hv]
  simp only [hyphenatedDocTypes, List.mem_cons, List.not_mem_nil,
    or_false] at h
  rcases h with h | h | h | h | h | h | h | h <;> rw [h] <;> decide

/-- Claim C8 counterexample: the type-to-variant table of
convertJsonFieldToFormField has ten entries, not nine. -/
theorem C8_counterexample :
    typeToVariant.length = 10 ∧ (10 : Nat) ≠ 9 := by decide

/-- Claim C8 (amended): convertJsonFieldToFormField maps the type
string through the fixed ten-entry table (text and email both to Input,
file to File Input, date to Date Picker, datetime to Datetime Picker,
and so on), and a type outside the table becomes the type string with
only its first letter capitalized; for every documented hyphenated type
the produced variant matches no dispatcher case, so the JSON-builder
preview silently omits such a field. -/
theorem C8_amended (j : JsonField) (bag : StateBag) :
    ((convertJsonFieldToFormField j).variant
       = (lookupTable typeToVariant j.type).getD (capitalizeFirst j.type)) ∧
    typeToVariant.length = 10 ∧
    lookupTable typeToVariant "text" = some "Input" ∧
    lookupTable typeToVariant "email" = some "Input" ∧
    lookupTable typeToVariant "textarea" = some "Textarea" ∧
    lookupTable typeToVariant "password" = some "Password" ∧
    lookupTable typeToVariant "checkbox" = some "Checkbox" ∧
    lookupTable typeToVariant "select" = some "Select" ∧
    lookupTable typeToVariant "file" = some "File Input" ∧
    lookupTable typeToVariant "date" = some "Date Picker" ∧
    lookupTable typeToVariant "datetime" = some "Datetime Picker" ∧
    lookupTable typeToVariant "phone" = some "Phone" ∧
    (j.type ∈ hyphenatedDocTypes →
      renderFormField (convertJsonFieldToFormField j) bag = none) ∧
    (∀ (pre post : List JsonField), j.type ∈ hyphenatedDocTypes →
      formRendererRendered bag (pre ++ j :: post)
        = formRendererRendered bag (pre ++ post)) := by
  refine ⟨rfl, by decide, rfl, rfl, rfl, rfl, rfl, rfl, rfl, rfl, rfl, rfl,
    ?_, ?_⟩
  · intro h
    exact renderFormField_none_of_hyphenated j bag h
  · intro pre post h
    exact formRendererRendered_drop bag pre j post
      (renderFormField_none_of_hyphenated j
        (bagForField bag (convertJsonFieldToFormField j)) h)

/-- Claim C8 witness: the amended statement at a concrete date-picker
JSON field, whose converted variant Date-picker is dropped from the
preview. -/
theorem C8_amended_witness :
    renderFormField (convertJsonFieldToFormField sampleDatePickerJson)
        sampleBag = none ∧
    formRendererRendered sampleBag
        [sampleDatePickerJson, sampleTextJson]
      = formRendererRendered sampleBag [sampleTextJson] :=
  ⟨(C8_amended sampleDatePickerJson sampleBag).2.2.2.2.2.2.2.2.2.2.2.2.1
     (by decide),
   (C8_amended sampleDatePickerJson sampleBag).2.2.2.2.2.2.2.2.2.2.2.2.2
     [] [sampleTextJson] (by decide)⟩

/-! Claim C9. -/

/-- Claim C9: the Slider case mounts with the hard-coded default 5
whatever the declared defaultValue, min, max and step falling back to
0, 100 and 1 (JS or-falsy) when absent, and a slide stores the first
chosen number, as a string, only into the shared value slot of the
state bag: the effect list holds that single state-bag write and no
form.setValue. -/
theorem C9_slider (f : FormFieldType) (bag : StateBag)
    (h : f.variant = "Slider") :
    (renderFormField f bag).map
        (fun c => (c.sliderDefault, c.sliderMin, c.sliderMax, c.sliderStep))
      = some (some 5, some (jsOrInt f.min 0), some (jsOrInt f.max 100),
              some (jsOrInt f.step 1)) ∧
    (f.min = none →
      (renderFormField f bag).map (fun c => c.sliderMin) = some (some 0)) ∧
    (f.max = none →
      (renderFormField f bag).map (fun c => c.sliderMax)
        = some (some 100)) ∧
    (f.step = none →
      (renderFormField f bag).map (fun c => c.sliderStep)
        = some (some 1)) ∧
    (∀ (v : Int) (vs : List Int),
      (renderFormField f bag).map (fun c => c.handler (.slide (v :: vs)))
        = some [.setBag .value (.str (toString v))]) := by
  refine ⟨?_, ?_, ?_, ?_, ?_⟩ <;> intros <;>
    simp_all [renderFormField, jsOrInt]

/-- Claim C9 witness: the statement at a concrete Slider field that
declares defaultValue 500 and no min, max or step. -/
theorem C9_witness :
    (renderFormField sampleSliderField sampleBag).map
        (fun c => (c.sliderDefault, c.sliderMin, c.sliderMax, c.sliderStep))
      = some (some 5, some 0, some 100, some 1) ∧
    (renderFormField sampleSliderField sampleBag).map
        (fun c => c.handler (.slide [7]))
      = some [.setBag .value (.str "7")] :=
  ⟨(C9_slider sampleSliderField sampleBag rfl).1,
   (C9_slider sampleSliderField sampleBag rfl).2.2.2.2 7 []⟩

/-! Claim C10. -/

/-- Claim C10: the Input OTP control always mounts with maxLength 6 and
the slot groups 0-1-2 and 3-4-5 around the separator, whatever the
declared length, and no interaction event produces any write — neither
a state-bag write nor a bound-form write. -/
theorem C10_input_otp (f : FormFieldType) (bag : StateBag)
    (h : f.variant = "Input OTP") :
    (renderFormField f bag).map (fun c => (c.otpMaxLength, c.otpGroups))
      = some (some 6, [[0, 1, 2], [3, 4, 5]]) ∧
    (∀ e : Event,
      (renderFormField f bag).map (fun c => c.handler e) = some []) := by
  constructor
  · simp [renderFormField, h]
  · intro e
    simp [renderFormField, h]

/-- Claim C10 witness: the statement at a concrete Input OTP field that
declares length 4 and still renders 6 slots with no wiring. -/
theorem C10_witness :
    (renderFormField sampleOtpField sampleBag).map
        (fun c => (c.otpMaxLength, c.otpGroups))
      = some (some 6, [[0, 1, 2], [3, 4, 5]]) ∧
    (renderFormField sampleOtpField sampleBag).map
        (fun c => c.handler .toggle) = some [] :=
  ⟨(C10_input_otp sampleOtpField sampleBag rfl).1,
   (C10_input_otp sampleOtpField sampleBag rfl).2 .toggle⟩

end FormBuilder
